import Mathlib

/-!
# Verification of `soundsproxy` (src/main.rs)

A shallow embedding of the `soundsproxy` HTTP relay: the serde-decoded data
model (`PodContainer`, `PodEpisodes`, …), the JSON decoding policy used by
`get_pod_info` / `get_pod_episodes`, the feed renderer `build_rss`, and the
dispatcher `get_feed` / `router`.  Machine integers are `Nat` with explicit
range checks at the decoding boundary; the `chrono` and `hhmmss` library
calls that the renderer makes are embedded as explicit Lean functions.
-/

namespace Soundsproxy

/-! ## Data model (the serde structs of main.rs, lines 18-90) -/

/-- `struct PodTitles { primary, secondary }` — both fields decoded with
`default_on_null` (null becomes the empty string). -/
structure PodTitles where
  primary : String
  secondary : String
  deriving DecidableEq, Repr

/-- `struct PodSynopses { short, medium, long }` — each field decoded with
`default_on_null` (null becomes the empty string). -/
structure PodSynopses where
  short : String
  medium : String
  long : String
  deriving DecidableEq, Repr

/-- `struct PodContainer { titles, synopses, image_url }`. -/
structure PodContainer where
  titles : PodTitles
  synopses : PodSynopses
  image_url : String
  deriving DecidableEq, Repr

/-- `struct PodDuration { value: u64, label }`.  `value` is a `Nat` that the
decoder only produces when it is `< 2^64`. -/
structure PodDuration where
  value : Nat
  label : String
  deriving DecidableEq, Repr

/-- `struct PodQualityVariant { bitrate: u32, file_url, file_size: u32, label }`. -/
structure PodQualityVariant where
  bitrate : Nat
  file_url : String
  file_size : Nat
  label : String
  deriving DecidableEq, Repr

/-- `struct PodQualityVariants { low, medium, high }`. -/
structure PodQualityVariants where
  low : PodQualityVariant
  medium : PodQualityVariant
  high : PodQualityVariant
  deriving DecidableEq, Repr

/-- `struct PodDownload { type (renamed download_type), quality_variants }`. -/
structure PodDownload where
  download_type : String
  quality_variants : PodQualityVariants
  deriving DecidableEq, Repr

/-- `struct PodRelease { date, label }`. -/
structure PodRelease where
  date : String
  label : String
  deriving DecidableEq, Repr

/-- `struct PodEpisode { titles, synopses, image_url, duration, download, release }`. -/
structure PodEpisode where
  titles : PodTitles
  synopses : PodSynopses
  image_url : String
  duration : PodDuration
  download : PodDownload
  release : PodRelease
  deriving DecidableEq, Repr

/-- `struct PodEpisodes { data: Vec<PodEpisode> }`. -/
structure PodEpisodes where
  data : List PodEpisode
  deriving DecidableEq, Repr

/-! ## JSON values and the serde decoding policy

The upstream bodies are JSON; `reqwest::Response::json::<T>()` runs
serde-json deserialization into the structs above.  JSON numbers are modelled
as integers (no claim exercises fractional numbers). -/

inductive Json where
  | null : Json
  | bool : Bool → Json
  | num : Int → Json
  | str : String → Json
  | arr : List Json → Json
  | obj : List (String × Json) → Json

/-- Look up a field of a JSON object: serde accepts the field exactly once.
`[]` no occurrence, `[v]` exactly one, otherwise a duplicate (serde errors on
duplicate fields, so decoding succeeds only in the singleton case). -/
def getUniqueField (fields : List (String × Json)) (key : String) : Except String Json :=
  match (fields.filter (fun f => f.1 = key)).map (fun f => f.2) with
  | [] => .error ("missing field " ++ key)
  | [v] => .ok v
  | _ => .error ("duplicate field " ++ key)

/-- Plain lookup of the first occurrence of a field (used to state claims
about payload shape). -/
def getField (fields : List (String × Json)) (key : String) : Option Json :=
  (fields.filter (fun f => f.1 = key)).head?.map (fun f => f.2)

/-- `String` deserialization: only a JSON string is accepted. -/
def decodeString (j : Json) : Except String String :=
  match j with
  | .str s => .ok s
  | _ => .error "invalid type: expected a string"

/-- `serde_with::rust::default_on_null` applied to a `String` field: JSON
null decodes to the empty string, a JSON string to itself, anything else is
a type error. -/
def decodeStringOrNull (j : Json) : Except String String :=
  match j with
  | .null => .ok ""
  | .str s => .ok s
  | _ => .error "invalid type: expected a string or null"

/-- `u64` deserialization: an integral JSON number in `[0, 2^64)`. -/
def decodeU64 (j : Json) : Except String Nat :=
  match j with
  | .num n => if 0 ≤ n ∧ n < (2 : Int) ^ 64 then .ok n.toNat else .error "invalid value: out of range for u64"
  | _ => .error "invalid type: expected u64"

/-- `u32` deserialization: an integral JSON number in `[0, 2^32)`. -/
def decodeU32 (j : Json) : Except String Nat :=
  match j with
  | .num n => if 0 ≤ n ∧ n < (2 : Int) ^ 32 then .ok n.toNat else .error "invalid value: out of range for u32"
  | _ => .error "invalid type: expected u32"

/-- Derived `Deserialize` for `PodTitles`. -/
def decodePodTitles (j : Json) : Except String PodTitles :=
  match j with
  | .obj fields => do
      let primary ← decodeStringOrNull (← getUniqueField fields "primary")
      let secondary ← decodeStringOrNull (← getUniqueField fields "secondary")
      .ok { primary := primary, secondary := secondary }
  | _ => .error "invalid type: expected struct PodTitles"

/-- Derived `Deserialize` for `PodSynopses` (each field `default_on_null`). -/
def decodePodSynopses (j : Json) : Except String PodSynopses :=
  match j with
  | .obj fields => do
      let short ← decodeStringOrNull (← getUniqueField fields "short")
      let medium ← decodeStringOrNull (← getUniqueField fields "medium")
      let long ← decodeStringOrNull (← getUniqueField fields "long")
      .ok { short := short, medium := medium, long := long }
  | _ => .error "invalid type: expected struct PodSynopses"

/-- Derived `Deserialize` for `PodContainer`. -/
def decodePodContainer (j : Json) : Except String PodContainer :=
  match j with
  | .obj fields => do
      let titles ← decodePodTitles (← getUniqueField fields "titles")
      let synopses ← decodePodSynopses (← getUniqueField fields "synopses")
      let image_url ← decodeString (← getUniqueField fields "image_url")
      .ok { titles := titles, synopses := synopses, image_url := image_url }
  | _ => .error "invalid type: expected struct PodContainer"

/-- Derived `Deserialize` for `PodDuration`. -/
def decodePodDuration (j : Json) : Except String PodDuration :=
  match j with
  | .obj fields => do
      let value ← decodeU64 (← getUniqueField fields "value")
      let label ← decodeString (← getUniqueField fields "label")
      .ok { value := value, label := label }
  | _ => .error "invalid type: expected struct PodDuration"

/-- Derived `Deserialize` for `PodQualityVariant`. -/
def decodePodQualityVariant (j : Json) : Except String PodQualityVariant :=
  match j with
  | .obj fields => do
      let bitrate ← decodeU32 (← getUniqueField fields "bitrate")
      let file_url ← decodeString (← getUniqueField fields "file_url")
      let file_size ← decodeU32 (← getUniqueField fields "file_size")
      let label ← decodeString (← getUniqueField fields "label")
      .ok { bitrate := bitrate, file_url := file_url, file_size := file_size, label := label }
  | _ => .error "invalid type: expected struct PodQualityVariant"

/-- Derived `Deserialize` for `PodQualityVariants`. -/
def decodePodQualityVariants (j : Json) : Except String PodQualityVariants :=
  match j with
  | .obj fields => do
      let low ← decodePodQualityVariant (← getUniqueField fields "low")
      let medium ← decodePodQualityVariant (← getUniqueField fields "medium")
      let high ← decodePodQualityVariant (← getUniqueField fields "high")
      .ok { low := low, medium := medium, high := high }
  | _ => .error "invalid type: expected struct PodQualityVariants"

/-- Derived `Deserialize` for `PodDownload` (`type` renamed to `download_type`). -/
def decodePodDownload (j : Json) : Except String PodDownload :=
  match j with
  | .obj fields => do
      let download_type ← decodeString (← getUniqueField fields "type")
      let quality_variants ← decodePodQualityVariants (← getUniqueField fields "quality_variants")
      .ok { download_type := download_type, quality_variants := quality_variants }
  | _ => .error "invalid type: expected struct PodDownload"

/-- Derived `Deserialize` for `PodRelease`. -/
def decodePodRelease (j : Json) : Except String PodRelease :=
  match j with
  | .obj fields => do
      let date ← decodeString (← getUniqueField fields "date")
      let label ← decodeString (← getUniqueField fields "label")
      .ok { date := date, label := label }
  | _ => .error "invalid type: expected struct PodRelease"

/-- Derived `Deserialize` for `PodEpisode`. -/
def decodePodEpisode (j : Json) : Except String PodEpisode :=
  match j with
  | .obj fields => do
      let titles ← decodePodTitles (← getUniqueField fields "titles")
      let synopses ← decodePodSynopses (← getUniqueField fields "synopses")
      let image_url ← decodeString (← getUniqueField fields "image_url")
      let duration ← decodePodDuration (← getUniqueField fields "duration")
      let download ← decodePodDownload (← getUniqueField fields "download")
      let release ← decodePodRelease (← getUniqueField fields "release")
      .ok { titles := titles, synopses := synopses, image_url := image_url,
            duration := duration, download := download, release := release }
  | _ => .error "invalid type: expected struct PodEpisode"

/-- Derived `Deserialize` for `PodEpisodes` (`data: Vec<PodEpisode>`). -/
def decodePodEpisodes (j : Json) : Except String PodEpisodes :=
  match j with
  | .obj fields => do
      let dataJson ← getUniqueField fields "data"
      match dataJson with
      | .arr xs => do
          let eps ← xs.mapM decodePodEpisode
          .ok { data := eps }
      | _ => .error "invalid type: expected a sequence"
  | _ => .error "invalid type: expected struct PodEpisodes"

/-! ## String helpers shared by the renderer -/

/-- One step of Rust `str::replace` restricted to a non-empty pattern
`p :: ps`: scan left to right, replacing each non-overlapping occurrence.
`fuel` bounds the recursion by the input length (each step consumes at least
one character). -/
def replaceChars (p : Char) (ps rep : List Char) : Nat → List Char → List Char
  | 0, l => l
  | _ + 1, [] => []
  | fuel + 1, c :: rest =>
      if c = p ∧ ps.isPrefixOf rest then
        rep ++ replaceChars p ps rep fuel (rest.drop ps.length)
      else
        c :: replaceChars p ps rep fuel rest

/-- Rust `str::replace(self, pat, rep)` for a non-empty literal pattern
(the only use in the program has pattern `"{recipe}"`). -/
def rustReplace (s pat rep : String) : String :=
  match pat.data with
  | [] => s
  | p :: ps => ⟨replaceChars p ps rep.data s.data.length s.data⟩

/-- `fn replace_img_url(input: &str) -> String` (main.rs line 110-112):
`input.replace("{recipe}", "288x288")`. -/
def replace_img_url (input : String) : String :=
  rustReplace input "\x7brecipe\x7d" "288x288"

/-- Rust `format!("{:02}", n)` for a natural number: decimal digits,
zero-padded on the left to width at least 2. -/
def pad2 (n : Nat) : String :=
  if n < 10 then "0" ++ toString n else toString n

/-- Rust `format!("{:02}", n)` for an `i64` value: a negative value is
printed as a minus sign followed by its digits (the sign already fills the
width, so no zero padding occurs for the values this program can produce). -/
def fmtI64w2 (n : Int) : String :=
  if n < 0 then "-" ++ toString (-n).toNat else pad2 n.toNat

/-! ## The `hhmmss` crate (used at main.rs line 126)

`Duration::new(e.duration.value, 0).hhmmss()`: the crate converts the
duration's seconds to `i64` (a `u64 as i64` cast, wrapping for values
`≥ 2^63`), takes the absolute value (itself wrapping at `i64::MIN`), and
prints `HH:MM:SS` with each component zero-padded to width 2 (hours may be
wider), prefixed with `-` when the seconds were negative. -/

/-- The `u64 as i64` cast. -/
def i64ofU64 (v : Nat) : Int :=
  if v < 2 ^ 63 then (v : Int) else (v : Int) - 2 ^ 64

/-- Wrapping `i64` negation (release-mode semantics: `-i64::MIN` wraps to
`i64::MIN`). -/
def i64negWrap (x : Int) : Int :=
  if x = -(2 ^ 63) then x else -x

/-- The crate's `s2hhmmss` on a seconds count (`i64`); Rust `/` and `%` on
`i64` truncate toward zero, hence `Int.tdiv` / `Int.tmod`. -/
def s2hhmmss (s : Int) : String :=
  let neg : Bool := s < 0
  let s1 : Int := if neg then i64negWrap s else s
  let h : Int := s1.tdiv 3600
  let s2 : Int := s1.tmod 3600
  let m : Int := s2.tdiv 60
  let s3 : Int := s2.tmod 60
  (if neg then "-" else "") ++ fmtI64w2 h ++ ":" ++ fmtI64w2 m ++ ":" ++ fmtI64w2 s3

/-- `Duration::new(v, 0).hhmmss()` for a `u64` seconds value `v`. -/
def hhmmssOfSecs (v : Nat) : String :=
  s2hhmmss (i64ofU64 v)

/-! ## The `chrono` calls (main.rs lines 134-138)

`DateTime::parse_from_rfc3339` and `DateTime::<FixedOffset>::to_rfc2822`.
A parsed value keeps the local (offset-carrying) calendar fields, which is
exactly what `to_rfc2822` prints. -/

/-- A `chrono::DateTime<FixedOffset>` as its local calendar fields plus the
offset in seconds. -/
structure CDateTime where
  year : Nat
  month : Nat
  day : Nat
  hour : Nat
  minute : Nat
  second : Nat
  offsetSecs : Int
  deriving DecidableEq, Repr

/-- `FixedOffset::east(0).timestamp(0, 0)`: the Unix epoch at UTC. -/
def epochEastZero : CDateTime :=
  { year := 1970, month := 1, day := 1, hour := 0, minute := 0, second := 0, offsetSecs := 0 }

/-- Proleptic-Gregorian leap year. -/
def isLeapYear (y : Nat) : Bool :=
  y % 4 = 0 ∧ (y % 100 ≠ 0 ∨ y % 400 = 0)

/-- Days in a month of a given year. -/
def daysInMonth (y m : Nat) : Nat :=
  if m = 2 then (if isLeapYear y then 29 else 28)
  else if m = 4 ∨ m = 6 ∨ m = 9 ∨ m = 11 then 30
  else 31

/-- The decimal value of an ASCII digit. -/
def digitVal (c : Char) : Option Nat :=
  if c.isDigit then some (c.toNat - 48) else none

/-- Read exactly two ASCII digits. -/
def take2 : List Char → Option (Nat × List Char)
  | c1 :: c2 :: rest => do
      let d1 ← digitVal c1
      let d2 ← digitVal c2
      some (d1 * 10 + d2, rest)
  | _ => none

/-- Read exactly four ASCII digits. -/
def take4 : List Char → Option (Nat × List Char)
  | c1 :: c2 :: c3 :: c4 :: rest => do
      let d1 ← digitVal c1
      let d2 ← digitVal c2
      let d3 ← digitVal c3
      let d4 ← digitVal c4
      some (((d1 * 10 + d2) * 10 + d3) * 10 + d4, rest)
  | _ => none

/-- Require one literal character. -/
def expectChar (c : Char) : List Char → Option (List Char)
  | c0 :: rest => if c0 = c then some rest else none
  | [] => none

/-- The date/time separator: `T`, `t` or a space. -/
def dateTimeSep : List Char → Option (List Char)
  | c0 :: rest => if c0 = 'T' ∨ c0 = 't' ∨ c0 = ' ' then some rest else none
  | [] => none

/-- Consume a run of ASCII digits. -/
def dropDigits : List Char → List Char
  | c :: rest => if c.isDigit then dropDigits rest else c :: rest
  | [] => []

/-- Optional fractional seconds: a dot followed by at least one digit
(the fractional value does not affect the rendered RFC 2822 text). -/
def skipFraction : List Char → Option (List Char)
  | '.' :: rest =>
      match rest with
      | c :: _ => if c.isDigit then some (dropDigits rest) else none
      | [] => none
  | l => some l

/-- The RFC 3339 numeric offset or `Z`/`z`; the offset must be a valid
`FixedOffset` (strictly between `-86400` and `86400` seconds). -/
def parseOffset : List Char → Option (Int × List Char)
  | 'Z' :: rest => some (0, rest)
  | 'z' :: rest => some (0, rest)
  | '+' :: rest => do
      let (h, r1) ← take2 rest
      let r2 ← expectChar ':' r1
      let (m, r3) ← take2 r2
      if h ≤ 23 ∧ m ≤ 59 then some (((h * 3600 + m * 60 : Nat) : Int), r3) else none
  | '-' :: rest => do
      let (h, r1) ← take2 rest
      let r2 ← expectChar ':' r1
      let (m, r3) ← take2 r2
      if h ≤ 23 ∧ m ≤ 59 then some (-((h * 3600 + m * 60 : Nat) : Int), r3) else none
  | _ => none

/-- `DateTime::parse_from_rfc3339`: strict RFC 3339 —
`YYYY-MM-DDTHH:MM:SS(.fff)?(Z|±HH:MM)` — with calendar validation (month,
day-of-month, hour ≤ 23, minute ≤ 59, second ≤ 60 allowing a leap second).
`none` models `Err(ParseError)`. -/
def parse_from_rfc3339 (s : String) : Option CDateTime := do
  let (y, r1) ← take4 s.data
  let r2 ← expectChar '-' r1
  let (mo, r3) ← take2 r2
  let r4 ← expectChar '-' r3
  let (d, r5) ← take2 r4
  let r6 ← dateTimeSep r5
  let (h, r7) ← take2 r6
  let r8 ← expectChar ':' r7
  let (mi, r9) ← take2 r8
  let r10 ← expectChar ':' r9
  let (sec, r11) ← take2 r10
  let r12 ← skipFraction r11
  let (off, r13) ← parseOffset r12
  if r13 = [] ∧ 1 ≤ mo ∧ mo ≤ 12 ∧ 1 ≤ d ∧ d ≤ daysInMonth y mo ∧
      h ≤ 23 ∧ mi ≤ 59 ∧ sec ≤ 60 then
    some { year := y, month := mo, day := d, hour := h, minute := mi,
           second := sec, offsetSecs := off }
  else
    none

/-- Days since 1970-01-01 of a proleptic-Gregorian civil date
(Howard Hinnant's `days_from_civil`). -/
def daysFromCivil (y mo d : Nat) : Int :=
  let yAdj : Int := if mo ≤ 2 then (y : Int) - 1 else (y : Int)
  let era : Int := (if 0 ≤ yAdj then yAdj else yAdj - 399).tdiv 400
  let yoe : Int := yAdj - era * 400
  let moShift : Int := if 2 < mo then (mo : Int) - 3 else (mo : Int) + 9
  let doy : Int := (153 * moShift + 2).tdiv 5 + (d : Int) - 1
  let doe : Int := yoe * 365 + yoe.tdiv 4 - yoe.tdiv 100 + doy
  era * 146097 + doe - 719468

/-- Weekday of a civil date, `0` = Sunday (1970-01-01 is a Thursday). -/
def weekdayOfCivil (y mo d : Nat) : Nat :=
  ((daysFromCivil y mo d + 4).emod 7).toNat

/-- English three-letter weekday names, `0` = Sunday. -/
def weekdayName (w : Nat) : String :=
  match w with
  | 0 => "Sun" | 1 => "Mon" | 2 => "Tue" | 3 => "Wed"
  | 4 => "Thu" | 5 => "Fri" | _ => "Sat"

/-- English three-letter month names. -/
def monthName (m : Nat) : String :=
  match m with
  | 1 => "Jan" | 2 => "Feb" | 3 => "Mar" | 4 => "Apr"
  | 5 => "May" | 6 => "Jun" | 7 => "Jul" | 8 => "Aug"
  | 9 => "Sep" | 10 => "Oct" | 11 => "Nov" | _ => "Dec"

/-- Rust `format!("{:04}", y)`. -/
def pad4 (n : Nat) : String :=
  if n < 10 then "000" ++ toString n
  else if n < 100 then "00" ++ toString n
  else if n < 1000 then "0" ++ toString n
  else toString n

/-- The `±HHMM` offset suffix of RFC 2822 text. -/
def rfc2822Offset (off : Int) : String :=
  let sign := if off < 0 then "-" else "+"
  let a := off.natAbs
  sign ++ pad2 (a / 3600) ++ pad2 (a % 3600 / 60)

/-- `DateTime::<FixedOffset>::to_rfc2822`: e.g.
`Thu, 1 Jan 1970 00:00:00 +0000` (day of month unpadded, year padded to 4). -/
def to_rfc2822 (dt : CDateTime) : String :=
  weekdayName (weekdayOfCivil dt.year dt.month dt.day) ++ ", " ++
    toString dt.day ++ " " ++ monthName dt.month ++ " " ++ pad4 dt.year ++ " " ++
    pad2 dt.hour ++ ":" ++ pad2 dt.minute ++ ":" ++ pad2 dt.second ++ " " ++
    rfc2822Offset dt.offsetSecs

/-! ## The `rss` crate structures (only the fields this program sets) -/

/-- `rss::Enclosure` as built by `EnclosureBuilder` (url, length, mime type). -/
structure Enclosure where
  url : String
  length : String
  mime_type : String
  deriving DecidableEq, Repr

/-- `rss::extension::itunes::ITunesItemExtension` (fields set by the program). -/
structure ITunesItemExtension where
  image : Option String
  duration : Option String
  subtitle : Option String
  deriving DecidableEq, Repr

/-- `rss::Item` (fields set by the program; builder defaults are `None`). -/
structure Item where
  title : Option String
  description : Option String
  itunes_ext : Option ITunesItemExtension
  enclosure : Option Enclosure
  pub_date : Option String
  deriving DecidableEq, Repr

/-- `rss::extension::itunes::ITunesChannelExtension` (fields set by the program). -/
structure ITunesChannelExtension where
  author : Option String
  block : Option String
  image : Option String
  complete : Option String
  deriving DecidableEq, Repr

/-- `rss::Channel` (fields set by the program).  `namespaces` is a
`BTreeMap`, i.e. held in sorted key order. -/
structure Channel where
  namespaces : List (String × String)
  title : String
  description : String
  itunes_ext : Option ITunesChannelExtension
  link : String
  items : List Item
  deriving DecidableEq, Repr

/-! ## XML serialization (`channel.to_string()`, the rss crate writer) -/

/-- XML text escaping as the quick-xml writer performs it. -/
def escapeXml (s : String) : String :=
  String.join (s.data.map (fun c =>
    if c = '&' then "&amp;"
    else if c = '<' then "&lt;"
    else if c = '>' then "&gt;"
    else if c = Char.ofNat 34 then "&quot;"
    else if c = Char.ofNat 39 then "&apos;"
    else String.singleton c))

/-- `<tag>` … `</tag>` with raw inner content. -/
def xmlElem (tag inner : String) : String :=
  "<" ++ tag ++ ">" ++ inner ++ "</" ++ tag ++ ">"

/-- A text element with escaped content. -/
def xmlTextElem (tag text : String) : String :=
  xmlElem tag (escapeXml text)

/-- A text element for an optional field; `None` fields are not written. -/
def xmlOptElem (tag : String) : Option String → String
  | none => ""
  | some t => xmlTextElem tag t

/-- The quote character as a string (for attribute syntax). -/
def dq : String := String.singleton (Char.ofNat 34)

/-- An attribute `name="escaped value"`. -/
def xmlAttr (name value : String) : String :=
  " " ++ name ++ "=" ++ dq ++ escapeXml value ++ dq

/-- Serialize an `Enclosure` as the self-closing `<enclosure …/>` element. -/
def enclosureToXml (e : Enclosure) : String :=
  "<enclosure" ++ xmlAttr "url" e.url ++ xmlAttr "length" e.length ++
    xmlAttr "type" e.mime_type ++ "/>"

/-- Serialize the iTunes item extension elements. -/
def itunesItemExtToXml (x : ITunesItemExtension) : String :=
  (match x.image with
   | none => ""
   | some i => "<itunes:image" ++ xmlAttr "href" i ++ "/>") ++
  xmlOptElem "itunes:duration" x.duration ++
  xmlOptElem "itunes:subtitle" x.subtitle

/-- Serialize one `<item>`. -/
def itemToXml (it : Item) : String :=
  xmlElem "item"
    (xmlOptElem "title" it.title ++
     (match it.enclosure with
      | none => ""
      | some e => enclosureToXml e) ++
     xmlOptElem "pubDate" it.pub_date ++
     xmlOptElem "description" it.description ++
     (match it.itunes_ext with
      | none => ""
      | some x => itunesItemExtToXml x))

/-- Serialize the iTunes channel extension elements. -/
def itunesChannelExtToXml (x : ITunesChannelExtension) : String :=
  xmlOptElem "itunes:author" x.author ++
  xmlOptElem "itunes:block" x.block ++
  (match x.image with
   | none => ""
   | some i => "<itunes:image" ++ xmlAttr "href" i ++ "/>") ++
  xmlOptElem "itunes:complete" x.complete

/-- The `xmlns:…` declarations on the root element (in `BTreeMap` order). -/
def namespacesToXml (ns : List (String × String)) : String :=
  String.join (ns.map (fun p => xmlAttr ("xmlns:" ++ p.1) p.2))

/-- `Channel::to_string()`: the full RSS 2.0 document. -/
def channelToString (ch : Channel) : String :=
  "<?xml version=" ++ dq ++ "1.0" ++ dq ++ " encoding=" ++ dq ++ "utf-8" ++ dq ++ "?>" ++
  "<rss version=" ++ dq ++ "2.0" ++ dq ++ namespacesToXml ch.namespaces ++ ">" ++
  xmlElem "channel"
    (xmlTextElem "title" ch.title ++
     xmlTextElem "link" ch.link ++
     xmlTextElem "description" ch.description ++
     (match ch.itunes_ext with
      | none => ""
      | some x => itunesChannelExtToXml x) ++
     String.join (ch.items.map itemToXml)) ++
  "</rss>"

/-! ## The feed renderer (`build_rss`, main.rs lines 114-166) -/

/-- The item publication date (main.rs lines 134-138):
`DateTime::parse_from_rfc3339(&e.release.date)
   .unwrap_or_else(|_| FixedOffset::east(0).timestamp(0, 0)).to_rfc2822()`. -/
def pubDateOf (date : String) : String :=
  to_rfc2822 ((parse_from_rfc3339 date).getD epochEastZero)

/-- The per-episode closure of `build_rss` (main.rs lines 118-140): one
`rss::Item` per `PodEpisode`. -/
def build_item (e : PodEpisode) : Item :=
  let encl : Enclosure :=
    { mime_type := "audio/mpeg",
      length := toString e.download.quality_variants.high.file_size,
      url := e.download.quality_variants.high.file_url }
  let itunes_ext : ITunesItemExtension :=
    { image := some (replace_img_url e.image_url),
      duration := some (hhmmssOfSecs e.duration.value),
      subtitle := some e.synopses.short }
  { title := some e.titles.secondary,
    description := some e.synopses.long,
    itunes_ext := some itunes_ext,
    enclosure := some encl,
    pub_date := some (pubDateOf e.release.date) }

/-- The `rss::Channel` value `build_rss` constructs before serializing. -/
def build_rss_channel (id : String) (info : PodContainer) (episodes : PodEpisodes) : Channel :=
  { namespaces :=
      [("content", "http://purl.org/rss/1.0/modules/content/"),
       ("itunes", "http://www.itunes.com/dtds/podcast-1.0.dtd")],
    title := info.titles.primary,
    description := info.synopses.medium,
    itunes_ext := some
      { author := some "BBC",
        block := some "Yes",
        image := some (replace_img_url info.image_url),
        complete := some "No" },
    link := "https://www.bbc.co.uk/sounds/series/" ++ id,
    items := episodes.data.map build_item }

/-- `fn build_rss(id, info, episodes) -> String` (main.rs lines 114-166). -/
def build_rss (id : String) (info : PodContainer) (episodes : PodEpisodes) : String :=
  channelToString (build_rss_channel id info episodes)

/-! ## The upstream client and the dispatcher (main.rs lines 92-108, 168-209)

An upstream call's observable outcome is either a transport-level failure
(network error, timeout, non-JSON body — `reqwest::Error` before
deserialization, carrying its display text) or a JSON body handed to serde.
`get_pod_info` / `get_pod_episodes` decode the body into the success struct;
there is no fallback decoding of any other shape — any body that does not
decode as the success struct becomes an `Err(reqwest::Error)` whose display
text is the decode error. -/

inductive FetchOutcome where
  | transportError : String → FetchOutcome
  | body : Json → FetchOutcome

/-- `async fn get_pod_info(id) -> Result<PodContainer, reqwest::Error>`
(main.rs lines 92-98): `client.get(url).send().await?.json::<PodContainer>()`. -/
def get_pod_info (outcome : FetchOutcome) : Except String PodContainer :=
  match outcome with
  | .transportError e => .error e
  | .body j => decodePodContainer j

/-- `async fn get_pod_episodes(id) -> Result<PodEpisodes, reqwest::Error>`
(main.rs lines 100-108). -/
def get_pod_episodes (outcome : FetchOutcome) : Except String PodEpisodes :=
  match outcome with
  | .transportError e => .error e
  | .body j => decodePodEpisodes j

/-- An HTTP response: status code, headers, body text. -/
structure HttpResponse where
  status : Nat
  headers : List (String × String)
  body : String
  deriving DecidableEq, Repr

/-- `async fn get_feed(path) -> Response<Body>` (main.rs lines 168-201):
`id = path[1..]`; `try_join!(get_pod_info(&id), get_pod_episodes(&id))`;
on `Ok` respond 200 with `Content-Type: application/xml` and the rendered
feed, on `Err(e)` respond 502 Bad Gateway with `e.to_string()` as body.
`try_join!` polls its futures in order, so when both fail the container
call's error is the one surfaced. -/
def get_feed (path : String) (containerOutcome episodesOutcome : FetchOutcome) :
    HttpResponse :=
  let id := path.drop 1
  match get_pod_info containerOutcome, get_pod_episodes episodesOutcome with
  | .ok info, .ok episodes =>
      { status := 200,
        headers := [("content-type", "application/xml")],
        body := build_rss id info episodes }
  | .error e, _ =>
      { status := 502, headers := [], body := e }
  | .ok _, .error e =>
      { status := 502, headers := [], body := e }

/-- The HTTP methods of `hyper::Method` (the router only distinguishes GET). -/
inductive HMethod where
  | GET | POST | PUT | DELETE | HEAD | OPTIONS | PATCH
  deriving DecidableEq, Repr

/-- The fixed greeting response `Response::new("Hello, World".into())`:
status 200, no headers set. -/
def greetingResponse : HttpResponse :=
  { status := 200, headers := [], body := "Hello, World" }

/-- `async fn router(req)` (main.rs lines 203-209): GET `/` and any non-GET
method yield the greeting; any other GET path is handed to `get_feed`. -/
def router (method : HMethod) (path : String)
    (containerOutcome episodesOutcome : FetchOutcome) : HttpResponse :=
  match method, path with
  | .GET, "/" => greetingResponse
  | .GET, p => get_feed p containerOutcome episodesOutcome
  | _, _ => greetingResponse

/-! ## Concrete sample values used by witnesses and counterexamples -/

/-- A wire payload for a container, all fields present and well-typed. -/
def sampleContainerJson : Json :=
  Json.obj
    [("titles", Json.obj [("primary", Json.str "The Show"), ("secondary", Json.str "A show")]),
     ("synopses", Json.obj [("short", Json.str "s"), ("medium", Json.str "m"), ("long", Json.str "l")]),
     ("image_url", Json.str "https://img.example/\x7brecipe\x7d/show.jpg")]

/-- The decoded form of `sampleContainerJson`. -/
def sampleContainer : PodContainer :=
  { titles := { primary := "The Show", secondary := "A show" },
    synopses := { short := "s", medium := "m", long := "l" },
    image_url := "https://img.example/\x7brecipe\x7d/show.jpg" }

/-- A wire payload for an empty episode list. -/
def sampleEpisodesJsonEmpty : Json := Json.obj [("data", Json.arr [])]

/-- A media variant. -/
def sampleVariant : PodQualityVariant :=
  { bitrate := 96, file_url := "https://media.example/a.mp3", file_size := 123456, label := "96kbps" }

/-- An episode whose duration is 61 seconds (under one hour) and whose
release date parses. -/
def sampleEpisode : PodEpisode :=
  { titles := { primary := "Ep primary", secondary := "Ep secondary" },
    synopses := { short := "short syn", medium := "medium syn", long := "long syn" },
    image_url := "https://img.example/\x7brecipe\x7d/ep.jpg",
    duration := { value := 61, label := "1 min" },
    download := { download_type := "non-drm",
                  quality_variants := { low := sampleVariant, medium := sampleVariant, high := sampleVariant } },
    release := { date := "2015-02-18T23:16:09Z", label := "18 Feb 2015" } }

/-- An episode whose `release.date` does not parse as RFC 3339. -/
def sampleEpisodeBadDate : PodEpisode :=
  { sampleEpisode with release := { date := "not-a-date", label := "???" } }

/-- A well-formed upstream Failure envelope (`errors` list instead of the
success shape), as described by the spec. -/
def failureEnvelopeJson : Json :=
  Json.obj
    [("errors", Json.arr
      [Json.obj
        [("id", Json.str "https://rms.api.bbc.co.uk/problems/not-found"),
         ("href", Json.str "/v2/programmes/bogus/container"),
         ("status", Json.num 404),
         ("message", Json.str "Programme not found"),
         ("replied_at", Json.str "2024-01-01T00:00:00Z")]])]

/-! ## Theorems -/

/-- C4: For every request, the dispatcher routes as follows: GET with path
`/` yields 200 with the fixed greeting body; GET with any other path treats
the path minus the leading slash as the show identifier and produces a feed;
any non-GET method yields the same fixed greeting body with status 200,
never 404 or 405. -/
theorem router_routing (m : HMethod) (p : String) (co eo : FetchOutcome) :
    router .GET "/" co eo = greetingResponse ∧
    (p ≠ "/" → router .GET p co eo = get_feed p co eo) ∧
    (m ≠ .GET → router m p co eo = greetingResponse) ∧
    greetingResponse.status = 200 ∧ greetingResponse.body = "Hello, World" ∧
    (∀ (path : String) (c2 e2 : FetchOutcome) (info : PodContainer) (eps : PodEpisodes),
      get_pod_info c2 = .ok info → get_pod_episodes e2 = .ok eps →
      (get_feed path c2 e2).body = build_rss (path.drop 1) info eps) := by
  refine ⟨rfl, ?_, ?_, rfl, rfl, ?_⟩
  · intro hp
    unfold router
    split
    · simp_all
    · rfl
    · simp_all
  · intro hm
    unfold router
    split
    · rfl
    · simp_all
    · rfl
  · intro path c2 e2 info eps hc he
    unfold get_feed
    rw [hc, he]

/-- Witness for C4 at concrete inputs: a non-root GET path is handed to the
feed builder, and a POST falls back to the greeting. -/
theorem router_routing_witness :
    router .GET "/x" (.transportError "boom") (.transportError "boom") =
      get_feed "/x" (.transportError "boom") (.transportError "boom") ∧
    router .POST "/x" (.transportError "boom") (.transportError "boom") = greetingResponse :=
  ⟨(router_routing .POST "/x" (.transportError "boom") (.transportError "boom")).2.1
      (by decide),
   (router_routing .POST "/x" (.transportError "boom") (.transportError "boom")).2.2.1
      (by decide)⟩

/-- C6: For every episode, the rendered enclosure's URL equals the
high-quality variant's file URL, its length equals the high-quality
variant's file size, and its mime type is `audio/mpeg`; the low and medium
variants are never surfaced (an item is unchanged under any replacement of
the low and medium variants). -/
theorem enclosure_from_high_variant (e : PodEpisode) (lo me : PodQualityVariant)
    (id : String) (info : PodContainer) (eps : PodEpisodes) :
    (build_item e).enclosure = some
      { url := e.download.quality_variants.high.file_url,
        length := toString e.download.quality_variants.high.file_size,
        mime_type := "audio/mpeg" } ∧
    build_item { e with download := { e.download with quality_variants :=
        { e.download.quality_variants with low := lo, medium := me } } } = build_item e ∧
    (build_rss_channel id info eps).items = eps.data.map build_item :=
  ⟨rfl, rfl, rfl⟩

/-- C7: For every Container and EpisodeList input, the rendered feed
contains exactly one item per episode, in the order received from upstream
with no reordering, and each item's title equals that episode's
`titles.secondary` and its description equals that episode's
`synopses.long`. -/
theorem items_one_per_episode_in_order (id : String) (info : PodContainer)
    (eps : PodEpisodes) (i : Nat) (h : i < eps.data.length) :
    (build_rss_channel id info eps).items.length = eps.data.length ∧
    (build_rss_channel id info eps).items[i]? = some (build_item eps.data[i]) ∧
    (build_item eps.data[i]).title = some eps.data[i].titles.secondary ∧
    (build_item eps.data[i]).description = some eps.data[i].synopses.long := by
  refine ⟨by simp [build_rss_channel], ?_, rfl, rfl⟩
  simp [build_rss_channel, List.getElem?_eq_getElem h]

/-- Witness for C7: a one-episode list renders one item carrying the
episode's secondary title and long synopsis. -/
theorem items_one_per_episode_in_order_witness :
    (build_rss_channel "x" sampleContainer { data := [sampleEpisode] }).items.length =
      ({ data := [sampleEpisode] } : PodEpisodes).data.length ∧
    (build_rss_channel "x" sampleContainer { data := [sampleEpisode] }).items[0]? =
      some (build_item (({ data := [sampleEpisode] } : PodEpisodes).data[0])) ∧
    (build_item (({ data := [sampleEpisode] } : PodEpisodes).data[0])).title =
      some (({ data := [sampleEpisode] } : PodEpisodes).data[0]).titles.secondary ∧
    (build_item (({ data := [sampleEpisode] } : PodEpisodes).data[0])).description =
      some (({ data := [sampleEpisode] } : PodEpisodes).data[0]).synopses.long :=
  items_one_per_episode_in_order "x" sampleContainer { data := [sampleEpisode] } 0
    (by decide)

/-- C9: For every identifier, Container, and EpisodeList, rendering the feed
twice from the same inputs yields byte-identical XML output: the renderer is
a deterministic function of its arguments with no randomness or wall-clock
dependence. -/
theorem build_rss_deterministic (id1 id2 : String) (info1 info2 : PodContainer)
    (eps1 eps2 : PodEpisodes)
    (hid : id1 = id2) (hinfo : info1 = info2) (heps : eps1 = eps2) :
    build_rss id1 info1 eps1 = build_rss id2 info2 eps2 := by
  subst hid; subst hinfo; subst heps; rfl

/-- Witness for C9: two renders of the same concrete inputs agree. -/
theorem build_rss_deterministic_witness :
    build_rss "x" sampleContainer { data := [sampleEpisode] } =
      build_rss "x" sampleContainer { data := [sampleEpisode] } :=
  build_rss_deterministic "x" "x" sampleContainer sampleContainer
    { data := [sampleEpisode] } { data := [sampleEpisode] } rfl rfl rfl

/-- C10: For every successfully decoded Container and EpisodeList (any
string contents, any u64 duration value, any u32 file sizes), the renderer
totally produces a string and never panics or errors: the date-parse
fallback, the recipe substitution, and the duration formatting are defined
on all such inputs, and no episode is dropped by a failing step. -/
theorem build_rss_total (id : String) (info : PodContainer) (eps : PodEpisodes)
    (d img : String) (v : Nat) :
    (∃ s : String, build_rss id info eps = s) ∧
    (build_rss_channel id info eps).items.length = eps.data.length ∧
    build_rss id info eps = channelToString (build_rss_channel id info eps) ∧
    (∃ pd : String, pubDateOf d = pd) ∧
    (∃ u : String, replace_img_url img = u) ∧
    (∃ ds : String, hhmmssOfSecs v = ds) :=
  ⟨⟨_, rfl⟩, by simp [build_rss_channel], rfl, ⟨_, rfl⟩, ⟨_, rfl⟩, ⟨_, rfl⟩⟩

/-- C5: For every episode whose `release.date` fails to parse as a
date-with-offset timestamp (e.g. the string "not-a-date"), rendering does
not fail: the item's publication date is exactly the Unix epoch at UTC, and
every emitted item date is in RFC-2822 format. -/
theorem pub_date_parse_fallback (e : PodEpisode)
    (h : parse_from_rfc3339 e.release.date = none) :
    (build_item e).pub_date = some (to_rfc2822 epochEastZero) ∧
    to_rfc2822 epochEastZero = "Thu, 1 Jan 1970 00:00:00 +0000" ∧
    ∀ e2 : PodEpisode, ∃ dt : CDateTime, (build_item e2).pub_date = some (to_rfc2822 dt) := by
  refine ⟨?_, rfl, fun e2 => ⟨(parse_from_rfc3339 e2.release.date).getD epochEastZero, rfl⟩⟩
  show some (pubDateOf e.release.date) = _
  unfold pubDateOf
  rw [h]
  rfl

/-- Witness for C5: the episode whose release date is `"not-a-date"`
renders the epoch publication date. -/
theorem pub_date_parse_fallback_witness :
    (build_item sampleEpisodeBadDate).pub_date = some (to_rfc2822 epochEastZero) ∧
    to_rfc2822 epochEastZero = "Thu, 1 Jan 1970 00:00:00 +0000" ∧
    ∀ e2 : PodEpisode, ∃ dt : CDateTime, (build_item e2).pub_date = some (to_rfc2822 dt) :=
  pub_date_parse_fallback sampleEpisodeBadDate rfl

/-- C2 counterexample: on a concrete fully successful feed request the
response carries `Content-Type: application/xml`, not the
`application/rss+xml` value the claim states. -/
theorem feed_content_type_counterexample :
    (get_feed "/abc" (.body sampleContainerJson) (.body sampleEpisodesJsonEmpty)).status = 200 ∧
    (get_feed "/abc" (.body sampleContainerJson) (.body sampleEpisodesJsonEmpty)).headers =
      [("content-type", "application/xml")] ∧
    ("application/xml" : String) ≠ "application/rss+xml" :=
  ⟨rfl, rfl, by decide⟩

/-- C2 amended: for every feed request where both upstream fetches succeed,
the HTTP response has status 200 and the Content-Type header value
`application/xml`, with the rendered XML as body. -/
theorem feed_success_response (path : String) (co eo : FetchOutcome)
    (info : PodContainer) (eps : PodEpisodes)
    (hc : get_pod_info co = .ok info) (he : get_pod_episodes eo = .ok eps) :
    get_feed path co eo =
      { status := 200, headers := [("content-type", "application/xml")],
        body := build_rss (path.drop 1) info eps } := by
  unfold get_feed
  rw [hc, he]

/-- Witness for C2 at a concrete successful pair of upstream bodies. -/
theorem feed_success_response_witness :
    get_feed "/abc" (.body sampleContainerJson) (.body sampleEpisodesJsonEmpty) =
      { status := 200, headers := [("content-type", "application/xml")],
        body := build_rss ("/abc".drop 1) sampleContainer { data := [] } } :=
  feed_success_response "/abc" (.body sampleContainerJson) (.body sampleEpisodesJsonEmpty)
    sampleContainer { data := [] } rfl rfl

/-- C1 counterexample: on a concrete feed request whose container fetch
returns a well-formed Failure envelope (`errors = [{message: "Programme not
found", …}]`) and whose episodes fetch succeeds, the response status is 502,
not the claimed 404, and the body is the serde decode error text, not the
error entry's `message`. -/
theorem failure_envelope_counterexample :
    (get_feed "/x" (.body failureEnvelopeJson) (.body sampleEpisodesJsonEmpty)).status = 502 ∧
    (get_feed "/x" (.body failureEnvelopeJson) (.body sampleEpisodesJsonEmpty)).status ≠ 404 ∧
    (get_feed "/x" (.body failureEnvelopeJson) (.body sampleEpisodesJsonEmpty)).body ≠
      "Programme not found" := by
  refine ⟨rfl, by decide, ?_⟩
  show "missing field titles" ≠ "Programme not found"
  decide

/-- C1 amended: a well-formed Failure envelope receives no fallback
decoding — it simply fails the success-shape decode, so the container call
returns an error and the dispatcher responds 502 Bad Gateway with that
error's description as the body; the dispatcher never produces a 404 for
any outcome pair. -/
theorem feed_container_error_response (path : String) (co eo : FetchOutcome) (e : String)
    (hc : get_pod_info co = .error e) :
    get_feed path co eo = { status := 502, headers := [], body := e } ∧
    ∀ co2 eo2 : FetchOutcome,
      (get_feed path co2 eo2).status = 200 ∨ (get_feed path co2 eo2).status = 502 := by
  constructor
  · unfold get_feed
    rw [hc]
  · intro co2 eo2
    unfold get_feed
    cases get_pod_info co2 <;> cases get_pod_episodes eo2 <;> simp

/-- Witness for C1 at the concrete Failure envelope: the decode error
("missing field titles") is surfaced with status 502. -/
theorem feed_container_error_response_witness :
    get_feed "/x" (.body failureEnvelopeJson) (.body sampleEpisodesJsonEmpty) =
      { status := 502, headers := [], body := "missing field titles" } ∧
    ∀ co2 eo2 : FetchOutcome,
      (get_feed "/x" co2 eo2).status = 200 ∨ (get_feed "/x" co2 eo2).status = 502 :=
  feed_container_error_response "/x" (.body failureEnvelopeJson)
    (.body sampleEpisodesJsonEmpty) "missing field titles" rfl

/-- `format!("{:02}", n)` of a cast natural number is plain two-digit
padding. -/
theorem fmtI64w2_coe (n : Nat) : fmtI64w2 ((n : Nat) : Int) = pad2 n := by
  unfold fmtI64w2
  rw [if_neg (Int.not_lt.mpr (Int.ofNat_nonneg n))]
  simp

/-- For a seconds value below `2^63` (no `u64 as i64` wrap), the `hhmmss`
crate prints `HH:MM:SS` with every component zero-padded to width at least
two. -/
theorem hhmmss_format (v : Nat) (h : v < 2 ^ 63) :
    hhmmssOfSecs v =
      pad2 (v / 3600) ++ ":" ++ pad2 (v % 3600 / 60) ++ ":" ++ pad2 (v % 60) := by
  have h1 : i64ofU64 v = (v : Int) := by unfold i64ofU64; rw [if_pos h]
  have hd : decide ((v : Int) < 0) = false := by simp
  have e1 : (v : Int).tdiv 3600 = ((v / 3600 : Nat) : Int) := rfl
  have e2 : (v : Int).tmod 3600 = ((v % 3600 : Nat) : Int) := rfl
  have e3 : ((v % 3600 : Nat) : Int).tdiv 60 = ((v % 3600 / 60 : Nat) : Int) := rfl
  have e4 : ((v % 3600 : Nat) : Int).tmod 60 = ((v % 3600 % 60 : Nat) : Int) := rfl
  have e5 : v % 3600 % 60 = v % 60 := Nat.mod_mod_of_dvd v (by norm_num)
  unfold hhmmssOfSecs s2hhmmss
  rw [h1]
  simp only [hd, Bool.false_eq_true, if_false, e1, e2, e3, e4, e5, fmtI64w2_coe]
  simp

/-- C3 counterexample: a 61-second episode (under one hour) renders the
iTunes duration `"00:01:01"`, which is not the `MM:SS` form `"01:01"` the
claim states for durations under one hour. -/
theorem duration_format_counterexample :
    sampleEpisode.duration.value = 61 ∧
    (build_item sampleEpisode).itunes_ext = some
      { image := some (replace_img_url sampleEpisode.image_url),
        duration := some "00:01:01",
        subtitle := some "short syn" } ∧
    ("00:01:01" : String) ≠ "01:01" :=
  ⟨rfl, rfl, by decide⟩

/-- C3 amended: for every episode, the iTunes item duration string is
derived from the numeric seconds value (the upstream display label is
ignored) and formatted as zero-padded `HH:MM:SS` — the two-digit hours
component is always present, also when the duration is under one hour —
whenever the seconds value stays below `2^63` (no `u64 as i64` wrap in the
`hhmmss` crate). -/
theorem item_duration_format (e : PodEpisode) (lbl : String)
    (h : e.duration.value < 2 ^ 63) :
    (build_item e).itunes_ext = some
      { image := some (replace_img_url e.image_url),
        duration := some (hhmmssOfSecs e.duration.value),
        subtitle := some e.synopses.short } ∧
    build_item { e with duration := { value := e.duration.value, label := lbl } } =
      build_item e ∧
    hhmmssOfSecs e.duration.value =
      pad2 (e.duration.value / 3600) ++ ":" ++ pad2 (e.duration.value % 3600 / 60) ++ ":" ++
        pad2 (e.duration.value % 60) :=
  ⟨rfl, rfl, hhmmss_format e.duration.value h⟩

/-- Witness for C3 at the 61-second sample episode. -/
theorem item_duration_format_witness :
    (build_item sampleEpisode).itunes_ext = some
      { image := some (replace_img_url sampleEpisode.image_url),
        duration := some (hhmmssOfSecs sampleEpisode.duration.value),
        subtitle := some sampleEpisode.synopses.short } ∧
    build_item { sampleEpisode with duration :=
        { value := sampleEpisode.duration.value, label := "other label" } } =
      build_item sampleEpisode ∧
    hhmmssOfSecs sampleEpisode.duration.value =
      pad2 (sampleEpisode.duration.value / 3600) ++ ":" ++
        pad2 (sampleEpisode.duration.value % 3600 / 60) ++ ":" ++
        pad2 (sampleEpisode.duration.value % 60) :=
  item_duration_format sampleEpisode "other label" (by decide)

/-- Splitting a successful `Except` bind. -/
theorem except_bind_ok {α β : Type} (x : Except String α) (f : α → Except String β)
    (b : β) (h : x.bind f = .ok b) : ∃ a, x = .ok a ∧ f a = .ok b := by
  cases x with
  | error e => exact absurd h (by simp [Except.bind])
  | ok a => exact ⟨a, rfl, h⟩

/-- A unique field found by the serde decoder is the field a plain
first-occurrence lookup finds. -/
theorem getUniqueField_ok_getField (fields : List (String × Json)) (k : String)
    (v : Json) (h : getUniqueField fields k = .ok v) : getField fields k = some v := by
  unfold getUniqueField at h
  unfold getField
  cases hf : fields.filter (fun f => f.1 = k) with
  | nil => rw [hf] at h; exact absurd h (by simp)
  | cons x xs =>
    cases xs with
    | nil =>
      rw [hf] at h
      simp only [List.map] at h
      simp only [Except.ok.injEq] at h
      simp [h]
    | cons y ys =>
      rw [hf] at h
      exact absurd h (by simp)

/-- C8: For every upstream payload in which any of the `synopses` fields
(short, medium, long) is JSON null, the decoded model holds the empty
string for that field, so the rendered feed contains the empty string and
never the literal text "null". -/
theorem null_synopses_decode_empty (fields : List (String × Json)) (s : PodSynopses)
    (hok : decodePodSynopses (Json.obj fields) = .ok s) :
    (getField fields "short" = some Json.null → s.short = "") ∧
    (getField fields "medium" = some Json.null → s.medium = "") ∧
    (getField fields "long" = some Json.null → s.long = "") := by
  unfold decodePodSynopses at hok
  obtain ⟨v1, h1, hok⟩ := except_bind_ok _ _ _ hok
  obtain ⟨s1, hv1, hok⟩ := except_bind_ok _ _ _ hok
  obtain ⟨v2, h2, hok⟩ := except_bind_ok _ _ _ hok
  obtain ⟨s2, hv2, hok⟩ := except_bind_ok _ _ _ hok
  obtain ⟨v3, h3, hok⟩ := except_bind_ok _ _ _ hok
  obtain ⟨s3, hv3, hok⟩ := except_bind_ok _ _ _ hok
  have hs : s = ⟨s1, s2, s3⟩ := by
    injection hok with hinj
    exact hinj.symm
  subst hs
  refine ⟨?_, ?_, ?_⟩ <;> intro hnull
  · rw [getUniqueField_ok_getField _ _ _ h1] at hnull
    injection hnull with hv
    rw [hv] at hv1
    injection hv1 with hs1
    exact hs1.symm
  · rw [getUniqueField_ok_getField _ _ _ h2] at hnull
    injection hnull with hv
    rw [hv] at hv2
    injection hv2 with hs2
    exact hs2.symm
  · rw [getUniqueField_ok_getField _ _ _ h3] at hnull
    injection hnull with hv
    rw [hv] at hv3
    injection hv3 with hs3
    exact hs3.symm

/-- Witness for C8: the payload with all three synopses null decodes to
three empty strings. -/
theorem null_synopses_decode_empty_witness :
    ((getField [("short", Json.null), ("medium", Json.null), ("long", Json.null)] "short" =
        some Json.null →
      (PodSynopses.mk "" "" "").short = "") ∧
     (getField [("short", Json.null), ("medium", Json.null), ("long", Json.null)] "medium" =
        some Json.null →
      (PodSynopses.mk "" "" "").medium = "") ∧
     (getField [("short", Json.null), ("medium", Json.null), ("long", Json.null)] "long" =
        some Json.null →
      (PodSynopses.mk "" "" "").long = "")) :=
  null_synopses_decode_empty
    [("short", Json.null), ("medium", Json.null), ("long", Json.null)]
    (PodSynopses.mk "" "" "") rfl

end Soundsproxy
